import Mathlib

/-!
Shallow embedding of the audio-reactive visualizer (src/code.c).

Modelling conventions:
* C `float`/`double` arithmetic is embedded as exact rational arithmetic (ℚ);
  the float literals 0.9f, 0.1f, 0.3f, 1.4 are the rationals 9/10, 1/10,
  3/10, 7/5.
* `M_PI` is the exact rational value of the IEEE-754 double constant from
  math.h.
* The C library functions cos/sin are opaque to this development: the
  embedded functions take them as parameters (cosf sinf : ℚ → ℚ).
* `rand()` results are passed in explicitly (one natural number per call,
  in call order), each in [0, RAND_MAX].
* C `fmod` (result has the sign of the dividend) is `fmodQ`; float→int and
  float→Uint8 casts truncate toward zero (`cTrunc`, `toByte`).
* `Uint8` fields are ℕ values < 256 with wraparound arithmetic mod 256,
  `Uint32` subtraction is mod 2^32 (`sub32`).
-/

/-- Constant SCREEN_SIZE from code.c line 6. -/
def SCREEN_SIZE : ℤ := 800

/-- Constant MAX_PARTICLES from code.c line 9. -/
def MAX_PARTICLES : ℕ := 300

/-- Constant BASE_RADIUS from code.c line 10. -/
def BASE_RADIUS : ℚ := 100

/-- Constant BEAT_THRESHOLD (1.4) from code.c line 11. -/
def BEAT_THRESHOLD : ℚ := 7/5

/-- Value of RAND_MAX in the C library (2^31 - 1). -/
def RAND_MAX : ℕ := 2147483647

/-- Exact rational value of the IEEE-754 double constant M_PI. -/
def M_PI : ℚ := 884279719003555 / 281474976710656

/-- Truncation toward zero, the semantics of a C float→int cast. -/
def cTrunc (q : ℚ) : ℤ := if 0 ≤ q then ⌊q⌋ else -⌊-q⌋

/-- C `fmod x y`: `x - y * trunc (x / y)` (result carries the sign of x). -/
def fmodQ (x y : ℚ) : ℚ := x - y * (cTrunc (x / y) : ℚ)

/-- A C float→Uint8 cast for the in-range values produced by HSLtoRGB. -/
def toByte (q : ℚ) : ℕ := (cTrunc q).toNat

/-- Uint32 subtraction `a - b` (mod 2^32), as in `SDL_GetTicks() - state.last_beat`. -/
def sub32 (a b : ℕ) : ℕ := (a + (4294967296 - b % 4294967296)) % 4294967296

/-- The Particle struct, code.c lines 13-18.  `x y dx dy` are floats,
`lifetime` an int, `alpha` a Uint8 (a natural number < 256). -/
structure Particle where
  x : ℚ
  y : ℚ
  dx : ℚ
  dy : ℚ
  lifetime : ℤ
  alpha : ℕ
deriving Repr, DecidableEq

/-- The VisualizerState struct, code.c lines 20-26; the particle array is
a list (of length MAX_PARTICLES in the real program). -/
structure VisualizerState where
  amplitude : ℚ
  beat_energy : ℚ
  last_beat : ℕ
  particles : List Particle
  hue : ℚ
deriving Repr, DecidableEq

/-- The global `VisualizerState state = {0}` (code.c line 29): everything zeroed,
all MAX_PARTICLES pool slots inactive. -/
def initState : VisualizerState :=
  { amplitude := 0
    beat_energy := 0
    last_beat := 0
    particles := List.replicate MAX_PARTICLES ⟨0, 0, 0, 0, 0, 0⟩
    hue := 0 }

/-- HSLtoRGB, code.c lines 35-46.  Returns the three Uint8 channels. -/
def HSLtoRGB (h s l : ℚ) : ℕ × ℕ × ℕ :=
  let hw := fmodQ h 360
  let c := (1 - |2*l - 1|) * s
  let x := c * (1 - |fmodQ (hw/60) 2 - 1|)
  let m := l - c/2
  if hw < 60 then (toByte ((c+m)*255), toByte ((x+m)*255), toByte (m*255))
  else if hw < 120 then (toByte ((x+m)*255), toByte ((c+m)*255), toByte (m*255))
  else if hw < 180 then (toByte (m*255), toByte ((c+m)*255), toByte ((x+m)*255))
  else if hw < 240 then (toByte (m*255), toByte ((x+m)*255), toByte ((c+m)*255))
  else (toByte ((x+m)*255), toByte (m*255), toByte ((c+m)*255))

/-- Reference conversion following the spec's words (§4.5), for comparison
with the code's HSLtoRGB: the standard six-sector formula, h wrapped mod 360
on input to the nonnegative remainder, sector boundaries at 60° increments
(six branches; the [240,300) sector is (x,0,c), the [300,360) sector is
(c,0,x)), with the same chroma/secondary/offset terms and 8-bit casts. -/
def HSLtoRGB_spec (h s l : ℚ) : ℕ × ℕ × ℕ :=
  let hw := h - 360 * ((⌊h / 360⌋ : ℤ) : ℚ)
  let c := (1 - |2*l - 1|) * s
  let x := c * (1 - |fmodQ (hw/60) 2 - 1|)
  let m := l - c/2
  if hw < 60 then (toByte ((c+m)*255), toByte ((x+m)*255), toByte (m*255))
  else if hw < 120 then (toByte ((x+m)*255), toByte ((c+m)*255), toByte (m*255))
  else if hw < 180 then (toByte (m*255), toByte ((c+m)*255), toByte ((x+m)*255))
  else if hw < 240 then (toByte (m*255), toByte ((x+m)*255), toByte ((c+m)*255))
  else if hw < 300 then (toByte ((x+m)*255), toByte (m*255), toByte ((c+m)*255))
  else (toByte ((c+m)*255), toByte (m*255), toByte ((x+m)*255))

/-- rand_range, code.c lines 48-50: `min + rand() / (RAND_MAX / (max - min))`
with `r` the value returned by `rand()`. -/
def rand_range (r : ℕ) (lo hi : ℚ) : ℚ :=
  lo + (r : ℚ) / ((RAND_MAX : ℚ) / (hi - lo))

/-- The buffer energy `(Σ |sample_i| / 32768) / num_samples`, code.c lines 59-65. -/
def computeEnergy (samples : List ℤ) : ℚ :=
  (samples.map (fun s : ℤ => |(s : ℚ)| / 32768)).sum / (samples.length : ℚ)

/-- The particle written on a beat onset, code.c lines 76-84.  `r1 r2 r3`
are the three successive `rand()` results (angle, speed, lifetime). -/
def newParticle (cosf sinf : ℚ → ℚ) (r1 r2 r3 : ℕ) : Particle :=
  let angle := rand_range r1 0 (M_PI * 2)
  let speed := rand_range r2 1 3
  { x := 400, y := 400
    dx := cosf angle * speed
    dy := sinf angle * speed
    lifetime := ((r3 % 30 : ℕ) : ℤ) + 20
    alpha := 255 }

/-- The spawn loop of code.c lines 74-87: scan for the first slot with
`lifetime <= 0`, overwrite it, break; no write if every slot is active. -/
def spawnInto (p : Particle) : List Particle → List Particle
  | [] => []
  | q :: rest => if q.lifetime ≤ 0 then p :: rest else q :: spawnInto p rest

/-- Index of the first inactive slot (`lifetime <= 0`), if any. -/
def firstFree : List Particle → Option ℕ
  | [] => none
  | q :: rest => if q.lifetime ≤ 0 then some 0 else (firstFree rest).map (fun n => n + 1)

/-- audio_callback, code.c lines 56-92, as a state transformer.
`samples` is the Sint16 buffer, `now` the SDL_GetTicks() value, `r1 r2 r3`
the values of the three potential `rand()` calls. -/
def audio_callback (st : VisualizerState) (samples : List ℤ) (now : ℕ)
    (r1 r2 r3 : ℕ) (cosf sinf : ℚ → ℚ) : VisualizerState :=
  let energy := computeEnergy samples
  let st1 := { st with amplitude := energy
                       beat_energy := 9/10 * st.beat_energy + 1/10 * energy }
  let st2 :=
    if energy > st1.beat_energy * BEAT_THRESHOLD then
      { st1 with last_beat := now
                 particles := spawnInto (newParticle cosf sinf r1 r2 r3) st1.particles }
    else st1
  { st2 with hue := fmodQ (st2.hue + 3/10) 360 }

/-- The branch condition of code.c line 71, written on the pre-call state:
the comparison the code performs uses the beat_energy value assigned on
line 69 (the post-EMA-update baseline). -/
def firedDuring (st : VisualizerState) (samples : List ℤ) : Prop :=
  computeEnergy samples >
    (9/10 * st.beat_energy + 1/10 * computeEnergy samples) * BEAT_THRESHOLD

instance (st : VisualizerState) (samples : List ℤ) : Decidable (firedDuring st samples) := by
  unfold firedDuring; infer_instance

/-- One callback input: the delivered buffer, the tick value, and the three
potential rand() results of that invocation. -/
structure CallbackInput where
  samples : List ℤ
  now : ℕ
  r1 : ℕ
  r2 : ℕ
  r3 : ℕ

/-- Iterated invocation of audio_callback: `iterCallback cosf sinf ins st n`
is the state after the first n invocations, invocation k consuming `ins k`. -/
def iterCallback (cosf sinf : ℚ → ℚ) (ins : ℕ → CallbackInput)
    (st : VisualizerState) : ℕ → VisualizerState
  | 0 => st
  | n + 1 =>
      let s := iterCallback cosf sinf ins st n
      audio_callback s (ins n).samples (ins n).now (ins n).r1 (ins n).r2 (ins n).r3 cosf sinf

/-- One step of the per-frame particle advance, code.c lines 117-120:
position += velocity, lifetime--, and the Uint8 `alpha -= 8`, which in C
wraps modulo 256. -/
def advanceParticle (p : Particle) : Particle :=
  { p with x := p.x + p.dx
           y := p.y + p.dy
           lifetime := p.lifetime - 1
           alpha := (p.alpha + 248) % 256 }

/-- draw_particles, code.c lines 111-128, restricted to its state effect:
every active particle (lifetime > 0) is advanced, inactive slots untouched. -/
def draw_particles (l : List Particle) : List Particle :=
  l.map (fun p => if 0 < p.lifetime then advanceParticle p else p)

/-- draw_circle, code.c lines 98-109, as the list of plotted points:
180 points, the k-th at angle 2k degrees (i = 0,2,...,358), each coordinate
`SCREEN_SIZE/2 + cos(angle)*radius` truncated by the float→int cast. -/
def draw_circle (cosf sinf : ℚ → ℚ) (radius : ℚ) : List (ℤ × ℤ) :=
  (List.range 180).map (fun k =>
    let angle := ((2 * k : ℕ) : ℚ) * M_PI / 180
    (cTrunc (400 + cosf angle * radius), cTrunc (400 + sinf angle * radius)))

/-- The quantity `(SDL_GetTicks() - state.last_beat) / 1000.0f`,
code.c line 137 (Uint32 subtraction, then float division). -/
def beat_strength (now lb : ℕ) : ℚ := (sub32 now lb : ℚ) / 1000

/-- The ring radius `BASE_RADIUS + state.amplitude * 150 - beat_strength * 50`,
code.c line 138. -/
def visRadius (st : VisualizerState) (now : ℕ) : ℚ :=
  BASE_RADIUS + st.amplitude * 150 - beat_strength now st.last_beat * 50

/-- draw_visualization, code.c lines 130-143: the ring's plotted points and
the post-frame state (particles advanced by draw_particles). -/
def draw_visualization (cosf sinf : ℚ → ℚ) (st : VisualizerState) (now : ℕ) :
    List (ℤ × ℤ) × VisualizerState :=
  (draw_circle cosf sinf (visRadius st now),
   { st with particles := draw_particles st.particles })

/-! ### Projection lemmas for audio_callback -/

theorem audio_callback_amplitude (st : VisualizerState) (samples : List ℤ)
    (now r1 r2 r3 : ℕ) (cosf sinf : ℚ → ℚ) :
    (audio_callback st samples now r1 r2 r3 cosf sinf).amplitude = computeEnergy samples := by
  simp only [audio_callback]
  split <;> rfl

theorem audio_callback_beat_energy (st : VisualizerState) (samples : List ℤ)
    (now r1 r2 r3 : ℕ) (cosf sinf : ℚ → ℚ) :
    (audio_callback st samples now r1 r2 r3 cosf sinf).beat_energy =
      9/10 * st.beat_energy + 1/10 * computeEnergy samples := by
  simp only [audio_callback]
  split <;> rfl

theorem audio_callback_hue (st : VisualizerState) (samples : List ℤ)
    (now r1 r2 r3 : ℕ) (cosf sinf : ℚ → ℚ) :
    (audio_callback st samples now r1 r2 r3 cosf sinf).hue =
      fmodQ (st.hue + 3/10) 360 := by
  simp only [audio_callback]
  split <;> rfl

theorem audio_callback_last_beat (st : VisualizerState) (samples : List ℤ)
    (now r1 r2 r3 : ℕ) (cosf sinf : ℚ → ℚ) :
    (audio_callback st samples now r1 r2 r3 cosf sinf).last_beat =
      if firedDuring st samples then now else st.last_beat := by
  by_cases h : firedDuring st samples
  · rw [if_pos h]
    unfold firedDuring at h
    simp only [audio_callback]
    rw [if_pos h]
  · rw [if_neg h]
    unfold firedDuring at h
    simp only [audio_callback]
    rw [if_neg h]

theorem audio_callback_particles (st : VisualizerState) (samples : List ℤ)
    (now r1 r2 r3 : ℕ) (cosf sinf : ℚ → ℚ) :
    (audio_callback st samples now r1 r2 r3 cosf sinf).particles =
      if firedDuring st samples then
        spawnInto (newParticle cosf sinf r1 r2 r3) st.particles
      else st.particles := by
  by_cases h : firedDuring st samples
  · rw [if_pos h]
    unfold firedDuring at h
    simp only [audio_callback]
    rw [if_pos h]
  · rw [if_neg h]
    unfold firedDuring at h
    simp only [audio_callback]
    rw [if_neg h]

/-! ### Spawn-scan lemmas -/

theorem firstFree_eq_none_iff (l : List Particle) :
    firstFree l = none ↔ ∀ q ∈ l, 0 < q.lifetime := by
  induction l with
  | nil => simp [firstFree]
  | cons q rest ih =>
    unfold firstFree
    by_cases hq : q.lifetime ≤ 0
    · rw [if_pos hq]
      simp only [List.mem_cons]
      constructor
      · intro h; exact absurd h (by simp)
      · intro h; exact absurd (h q (Or.inl rfl)) (not_lt.mpr hq)
    · rw [if_neg hq]
      constructor
      · intro h r hr
        rcases List.mem_cons.mp hr with rfl | hr
        · exact lt_of_not_le hq
        · cases hf : firstFree rest with
          | none => exact (ih.mp hf) r hr
          | some j => rw [hf] at h; exact absurd h (by simp)
      · intro h
        have : firstFree rest = none :=
          ih.mpr (fun r hr => h r (List.mem_cons_of_mem q hr))
        rw [this]; rfl

theorem spawnInto_eq_self (p : Particle) (l : List Particle)
    (h : ∀ q ∈ l, 0 < q.lifetime) : spawnInto p l = l := by
  induction l with
  | nil => rfl
  | cons q rest ih =>
    unfold spawnInto
    rw [if_neg (not_le.mpr (h q (List.mem_cons_self q rest)))]
    rw [ih (fun r hr => h r (List.mem_cons_of_mem q hr))]

theorem spawnInto_eq_set (p : Particle) (l : List Particle) (i : ℕ)
    (h : firstFree l = some i) : spawnInto p l = l.set i p := by
  induction l generalizing i with
  | nil => simp [firstFree] at h
  | cons q rest ih =>
    unfold firstFree at h
    unfold spawnInto
    by_cases hq : q.lifetime ≤ 0
    · rw [if_pos hq] at h
      rw [if_pos hq]
      obtain rfl : (0 : ℕ) = i := by injection h
      rfl
    · rw [if_neg hq] at h
      rw [if_neg hq]
      cases hf : firstFree rest with
      | none => rw [hf] at h; exact absurd h (by simp)
      | some j =>
        rw [hf] at h
        simp only [Option.map_some'] at h
        obtain rfl : j + 1 = i := by injection h
        rw [ih j hf]
        rfl

theorem firstFree_spec (l : List Particle) (i : ℕ) (h : firstFree l = some i) :
    (∃ q, l.get? i = some q ∧ q.lifetime ≤ 0) ∧
      ∀ j, j < i → ∀ q, l.get? j = some q → 0 < q.lifetime := by
  induction l generalizing i with
  | nil => simp [firstFree] at h
  | cons q rest ih =>
    unfold firstFree at h
    by_cases hq : q.lifetime ≤ 0
    · rw [if_pos hq] at h
      obtain rfl : (0 : ℕ) = i := by injection h
      exact ⟨⟨q, rfl, hq⟩, fun j hj => absurd hj (Nat.not_lt_zero j)⟩
    · rw [if_neg hq] at h
      cases hf : firstFree rest with
      | none => rw [hf] at h; exact absurd h (by simp)
      | some j =>
        rw [hf] at h
        simp only [Option.map_some'] at h
        obtain rfl : j + 1 = i := by injection h
        obtain ⟨⟨p', hp', hl'⟩, hmin⟩ := ih j hf
        refine ⟨⟨p', by simpa using hp', hl'⟩, ?_⟩
        intro k hk p'' hp''
        cases k with
        | zero =>
          obtain rfl : q = p'' := by simpa using hp''
          exact lt_of_not_le hq
        | succ m =>
          exact hmin m (by omega) p'' (by simpa using hp'')

/-! ### rand_range bounds and fmod congruence -/

theorem rand_range_bounds (r : ℕ) (lo hi : ℚ) (hr : r ≤ RAND_MAX) (hlt : lo < hi) :
    lo ≤ rand_range r lo hi ∧ rand_range r lo hi ≤ hi := by
  unfold rand_range
  have hd : (0:ℚ) < hi - lo := by linarith
  have hN : (0:ℚ) < ((RAND_MAX : ℕ) : ℚ) := by norm_num [RAND_MAX]
  have hrq : (r : ℚ) ≤ ((RAND_MAX : ℕ) : ℚ) := by exact_mod_cast hr
  rw [div_div_eq_mul_div]
  constructor
  · have : 0 ≤ (r:ℚ) * (hi - lo) / ((RAND_MAX : ℕ) : ℚ) := by positivity
    linarith
  · have : (r:ℚ) * (hi - lo) / ((RAND_MAX : ℕ) : ℚ) ≤ hi - lo := by
      rw [div_le_iff₀ hN]
      nlinarith
    linarith

theorem fmodQ_add_nat_mul (h : ℚ) (k : ℕ) (hh : 0 ≤ h) :
    fmodQ (h + 360 * k) 360 = fmodQ h 360 := by
  unfold fmodQ cTrunc
  have h1 : (0:ℚ) ≤ h / 360 := by positivity
  have h2 : (0:ℚ) ≤ (h + 360 * k) / 360 := by positivity
  rw [if_pos h1, if_pos h2]
  have h3 : (h + 360 * k) / 360 = h / 360 + (k : ℚ) := by
    field_simp
    ring
  rw [h3, Int.floor_add_nat]
  push_cast
  ring

/-- A pre-call state with beat_energy 1/2, used to separate the pre-update
and post-update threshold comparisons. -/
def stHalf : VisualizerState := { initState with beat_energy := 1/2 }

/-- C1 fails on the code: with beat_energy = 1/2 and a buffer of the single
sample 23266 (energy 11633/16384 ≈ 0.71), the energy exceeds 1.4 times the
pre-update baseline (0.7), yet audio_callback signals no onset, because the
code's comparison on line 71 uses the baseline already updated on line 69. -/
theorem c1_counterexample :
    computeEnergy [23266] > stHalf.beat_energy * BEAT_THRESHOLD ∧
    stHalf.last_beat = 0 ∧
    (audio_callback stHalf [23266] 5 0 0 0 (fun _ => 0) (fun _ => 0)).last_beat ≠ 5 := by
  refine ⟨?_, by simp [stHalf, initState], ?_⟩
  · norm_num [computeEnergy, stHalf, initState, BEAT_THRESHOLD]
  · rw [audio_callback_last_beat, if_neg ?_]
    · simp [stHalf, initState]
    · unfold firedDuring
      norm_num [computeEnergy, stHalf, initState, BEAT_THRESHOLD]

/-- C1 (amended): a beat onset is signaled iff the buffer's energy exceeds
1.4 times the post-update baseline 0.9*beat_energy + 0.1*energy, i.e. the
threshold comparison uses the baseline from after this invocation's EMA
update. -/
theorem c1_post_update_threshold (st : VisualizerState) (samples : List ℤ)
    (now r1 r2 r3 : ℕ) (cosf sinf : ℚ → ℚ) (h : now ≠ st.last_beat) :
    ((audio_callback st samples now r1 r2 r3 cosf sinf).last_beat = now ↔
      computeEnergy samples >
        (9/10 * st.beat_energy + 1/10 * computeEnergy samples) * BEAT_THRESHOLD) := by
  rw [audio_callback_last_beat]
  by_cases hf : firedDuring st samples
  · rw [if_pos hf]
    exact ⟨fun _ => hf, fun _ => rfl⟩
  · rw [if_neg hf]
    exact ⟨fun hc => absurd hc.symm h, fun hc => absurd hc hf⟩

/-- Witness for C1's theorem at a concrete input (initial state, one buffer
with sample 16384, tick 5). -/
theorem c1_post_update_threshold_witness :
    ((audio_callback initState [16384] 5 0 0 0 (fun _ => 0) (fun _ => 0)).last_beat = 5 ↔
      computeEnergy [16384] >
        (9/10 * initState.beat_energy + 1/10 * computeEnergy [16384]) * BEAT_THRESHOLD) :=
  c1_post_update_threshold initState [16384] 5 0 0 0 (fun _ => 0) (fun _ => 0)
    (by simp [initState])

/-- C3: from the initial state (beat_energy = 0), the first buffer with
positive energy signals a beat onset and records the tick as last_beat. -/
theorem c3_cold_start_onset (samples : List ℤ) (h : 0 < computeEnergy samples)
    (now r1 r2 r3 : ℕ) (cosf sinf : ℚ → ℚ) :
    firedDuring initState samples ∧
    (audio_callback initState samples now r1 r2 r3 cosf sinf).last_beat = now := by
  have hf : firedDuring initState samples := by
    unfold firedDuring BEAT_THRESHOLD
    simp only [initState]
    nlinarith [h]
  exact ⟨hf, by rw [audio_callback_last_beat, if_pos hf]⟩

/-- Witness for C3's theorem: the buffer holding the single sample 100 has
energy 25/8192 > 0 and triggers the cold-start onset. -/
theorem c3_cold_start_onset_witness :
    firedDuring initState [100] ∧
    (audio_callback initState [100] 9 0 0 0 (fun _ => 0) (fun _ => 0)).last_beat = 9 :=
  c3_cold_start_onset [100] (by norm_num [computeEnergy]) 9 0 0 0 (fun _ => 0) (fun _ => 0)

/-- A state with a negative smoothed baseline; unreachable from initState
but a legal value of the struct. -/
def stNeg : VisualizerState := { initState with beat_energy := -1 }

/-- C9 fails as stated (for *every* starting state): from a state with
beat_energy = -1, an all-zero buffer satisfies 0 > (0.9*(-1))*1.4, so the
code signals an onset and overwrites last_beat with the current tick. -/
theorem c9_counterexample :
    (∀ s ∈ ([0] : List ℤ), s = 0) ∧
    stNeg.last_beat = 0 ∧
    (audio_callback stNeg [0] 7 0 0 0 (fun _ => 0) (fun _ => 0)).last_beat = 7 := by
  refine ⟨by simp, by simp [stNeg, initState], ?_⟩
  rw [audio_callback_last_beat, if_pos ?_]
  unfold firedDuring
  norm_num [computeEnergy, stNeg, initState, BEAT_THRESHOLD]

/-- C9 (amended): for any starting state whose beat_energy is nonnegative
(true of every state reachable from initState), an all-zero buffer sets
amplitude to 0, signals no onset (last_beat and the particle pool are
unchanged), and advances hue by exactly 0.3 degrees modulo 360. -/
theorem c9_zero_buffer (st : VisualizerState) (samples : List ℤ)
    (now r1 r2 r3 : ℕ) (cosf sinf : ℚ → ℚ)
    (hbe : 0 ≤ st.beat_energy) (hs : ∀ s ∈ samples, s = 0) (hne : samples ≠ []) :
    (audio_callback st samples now r1 r2 r3 cosf sinf).amplitude = 0 ∧
    (audio_callback st samples now r1 r2 r3 cosf sinf).last_beat = st.last_beat ∧
    (audio_callback st samples now r1 r2 r3 cosf sinf).particles = st.particles ∧
    (audio_callback st samples now r1 r2 r3 cosf sinf).hue = fmodQ (st.hue + 3/10) 360 ∧
    ∃ k : ℤ, st.hue + 3/10 - (audio_callback st samples now r1 r2 r3 cosf sinf).hue
      = 360 * k := by
  have he : computeEnergy samples = 0 := by
    unfold computeEnergy
    have hz : (samples.map (fun s : ℤ => |(s : ℚ)| / 32768)).sum = 0 := by
      apply List.sum_eq_zero
      intro x hx
      rcases List.mem_map.mp hx with ⟨a, ham, rfl⟩
      simp [hs a ham]
    rw [hz, zero_div]
  have hnf : ¬ firedDuring st samples := by
    unfold firedDuring BEAT_THRESHOLD
    rw [he]
    simp only [not_lt, gt_iff_lt]
    nlinarith [hbe]
  refine ⟨?_, ?_, ?_, audio_callback_hue _ _ _ _ _ _ _ _, ?_⟩
  · rw [audio_callback_amplitude, he]
  · rw [audio_callback_last_beat, if_neg hnf]
  · rw [audio_callback_particles, if_neg hnf]
  · exact ⟨cTrunc ((st.hue + 3/10) / 360), by
      rw [audio_callback_hue]
      unfold fmodQ
      ring⟩

/-- Witness for C9's theorem: initial state, the all-zero two-sample buffer. -/
theorem c9_zero_buffer_witness :
    (audio_callback initState [0, 0] 3 0 0 0 (fun _ => 0) (fun _ => 0)).amplitude = 0 ∧
    (audio_callback initState [0, 0] 3 0 0 0 (fun _ => 0) (fun _ => 0)).last_beat
      = initState.last_beat ∧
    (audio_callback initState [0, 0] 3 0 0 0 (fun _ => 0) (fun _ => 0)).particles
      = initState.particles ∧
    (audio_callback initState [0, 0] 3 0 0 0 (fun _ => 0) (fun _ => 0)).hue
      = fmodQ (initState.hue + 3/10) 360 ∧
    ∃ k : ℤ, initState.hue + 3/10
      - (audio_callback initState [0, 0] 3 0 0 0 (fun _ => 0) (fun _ => 0)).hue = 360 * k :=
  c9_zero_buffer initState [0, 0] 3 0 0 0 (fun _ => 0) (fun _ => 0)
    (by simp [initState]) (by simp) (by simp)

/-- C8: if every one of the pool slots is active (lifetime > 0) at a beat
onset, audio_callback leaves the particle pool completely unchanged, and
every slot is still active afterwards. -/
theorem c8_full_pool_noop (st : VisualizerState) (samples : List ℤ)
    (now r1 r2 r3 : ℕ) (cosf sinf : ℚ → ℚ)
    (h : ∀ q ∈ st.particles, 0 < q.lifetime) :
    (audio_callback st samples now r1 r2 r3 cosf sinf).particles = st.particles ∧
    ∀ q ∈ (audio_callback st samples now r1 r2 r3 cosf sinf).particles, 0 < q.lifetime := by
  have hp : (audio_callback st samples now r1 r2 r3 cosf sinf).particles = st.particles := by
    rw [audio_callback_particles]
    by_cases hf : firedDuring st samples
    · rw [if_pos hf]
      exact spawnInto_eq_self _ _ h
    · rw [if_neg hf]
  exact ⟨hp, by rw [hp]; exact h⟩

/-- A state whose 300 pool slots are all active. -/
def stFull : VisualizerState :=
  { initState with particles := List.replicate MAX_PARTICLES ⟨400, 400, 1, 1, 10, 255⟩ }

/-- Witness for C8's theorem: a 300-slot pool of active particles survives
an onset-triggering buffer unchanged. -/
theorem c8_full_pool_noop_witness :
    (audio_callback stFull [16384] 5 1 2 3 (fun _ => 0) (fun _ => 0)).particles
      = stFull.particles ∧
    ∀ q ∈ (audio_callback stFull [16384] 5 1 2 3 (fun _ => 0) (fun _ => 0)).particles,
      0 < q.lifetime :=
  c8_full_pool_noop stFull [16384] 5 1 2 3 (fun _ => 0) (fun _ => 0)
    (by intro q hq
        rw [stFull, List.mem_replicate] at hq
        rw [hq.2]
        norm_num)

/-- C10: per-invocation write footprint of audio_callback.  amplitude,
beat_energy and hue are updated on every invocation; last_beat and the
particle pool are touched only in the onset branch; an onset overwrites
only the lowest-index inactive slot (if any), leaving every other slot
unchanged. -/
theorem c10_frame_effect (st : VisualizerState) (samples : List ℤ)
    (now r1 r2 r3 : ℕ) (cosf sinf : ℚ → ℚ) :
    (audio_callback st samples now r1 r2 r3 cosf sinf).amplitude = computeEnergy samples ∧
    (audio_callback st samples now r1 r2 r3 cosf sinf).beat_energy =
      9/10 * st.beat_energy + 1/10 * computeEnergy samples ∧
    (audio_callback st samples now r1 r2 r3 cosf sinf).hue = fmodQ (st.hue + 3/10) 360 ∧
    (¬ firedDuring st samples →
      (audio_callback st samples now r1 r2 r3 cosf sinf).last_beat = st.last_beat ∧
      (audio_callback st samples now r1 r2 r3 cosf sinf).particles = st.particles) ∧
    (firedDuring st samples →
      (audio_callback st samples now r1 r2 r3 cosf sinf).last_beat = now ∧
      (firstFree st.particles = none →
        (audio_callback st samples now r1 r2 r3 cosf sinf).particles = st.particles) ∧
      (∀ i, firstFree st.particles = some i →
        (audio_callback st samples now r1 r2 r3 cosf sinf).particles =
          st.particles.set i (newParticle cosf sinf r1 r2 r3) ∧
        ∀ j, j ≠ i →
          (audio_callback st samples now r1 r2 r3 cosf sinf).particles.get? j =
            st.particles.get? j)) := by
  refine ⟨audio_callback_amplitude _ _ _ _ _ _ _ _,
          audio_callback_beat_energy _ _ _ _ _ _ _ _,
          audio_callback_hue _ _ _ _ _ _ _ _, ?_, ?_⟩
  · intro hnf
    rw [audio_callback_last_beat, audio_callback_particles, if_neg hnf, if_neg hnf]
    exact ⟨rfl, rfl⟩
  · intro hf
    rw [audio_callback_last_beat, audio_callback_particles, if_pos hf, if_pos hf]
    refine ⟨rfl, ?_, ?_⟩
    · intro hnone
      exact spawnInto_eq_self _ _ ((firstFree_eq_none_iff _).mp hnone)
    · intro i hi
      rw [spawnInto_eq_set _ _ _ hi]
      exact ⟨rfl, fun j hj => List.get?_set_ne _ _ (fun he => hj he.symm)⟩

/-- Witness for C10's theorem at a concrete input (initial state, one
nonzero buffer). -/
theorem c10_frame_effect_witness :
    (audio_callback initState [12345] 6 1 2 3 (fun _ => 0) (fun _ => 1)).amplitude
      = computeEnergy [12345] ∧
    (audio_callback initState [12345] 6 1 2 3 (fun _ => 0) (fun _ => 1)).beat_energy =
      9/10 * initState.beat_energy + 1/10 * computeEnergy [12345] ∧
    (audio_callback initState [12345] 6 1 2 3 (fun _ => 0) (fun _ => 1)).hue
      = fmodQ (initState.hue + 3/10) 360 ∧
    (¬ firedDuring initState [12345] →
      (audio_callback initState [12345] 6 1 2 3 (fun _ => 0) (fun _ => 1)).last_beat
        = initState.last_beat ∧
      (audio_callback initState [12345] 6 1 2 3 (fun _ => 0) (fun _ => 1)).particles
        = initState.particles) ∧
    (firedDuring initState [12345] →
      (audio_callback initState [12345] 6 1 2 3 (fun _ => 0) (fun _ => 1)).last_beat = 6 ∧
      (firstFree initState.particles = none →
        (audio_callback initState [12345] 6 1 2 3 (fun _ => 0) (fun _ => 1)).particles
          = initState.particles) ∧
      (∀ i, firstFree initState.particles = some i →
        (audio_callback initState [12345] 6 1 2 3 (fun _ => 0) (fun _ => 1)).particles =
          initState.particles.set i (newParticle (fun _ => 0) (fun _ => 1) 1 2 3) ∧
        ∀ j, j ≠ i →
          (audio_callback initState [12345] 6 1 2 3 (fun _ => 0) (fun _ => 1)).particles.get? j =
            initState.particles.get? j)) :=
  c10_frame_effect initState [12345] 6 1 2 3 (fun _ => 0) (fun _ => 1)

/-- Closed form of the EMA baseline under iterated invocation on buffers of
constant energy E, starting from the zeroed state: E * (1 - 0.9^n). -/
theorem iterCallback_beat_energy (cosf sinf : ℚ → ℚ) (ins : ℕ → CallbackInput)
    (E : ℚ) (h : ∀ i, computeEnergy (ins i).samples = E) (n : ℕ) :
    (iterCallback cosf sinf ins initState n).beat_energy = E * (1 - (9/10)^n) := by
  induction n with
  | zero => simp [iterCallback, initState]
  | succ n ih =>
    show (audio_callback (iterCallback cosf sinf ins initState n)
        (ins n).samples (ins n).now (ins n).r1 (ins n).r2 (ins n).r3 cosf sinf).beat_energy = _
    rw [audio_callback_beat_energy, ih, h n]
    ring

/-- A stream of identical callback inputs: every buffer is the single
full-scale sample -32768 (energy exactly 1). -/
def insConst : ℕ → CallbackInput := fun i => ⟨[-32768], i + 1, 0, 0, 0⟩

/-- C2 fails on the code: on the constant-energy stream of energy 1 from the
zeroed state, the onset condition also holds on the second invocation
(1 > (0.9*0.1 + 0.1)*1.4 = 0.266), contradicting "on no subsequent
invocation". -/
theorem c2_counterexample :
    (∀ i, computeEnergy (insConst i).samples = 1) ∧
    firedDuring (iterCallback (fun _ => 0) (fun _ => 0) insConst initState 1)
      (insConst 1).samples := by
  have hE : computeEnergy [-32768] = 1 := by norm_num [computeEnergy]
  have hall : ∀ i, computeEnergy (insConst i).samples = 1 := fun i => hE
  refine ⟨hall, ?_⟩
  unfold firedDuring
  have hb : (iterCallback (fun _ => 0) (fun _ => 0) insConst initState 1).beat_energy
      = 1 * (1 - (9/10)^1) :=
    iterCallback_beat_energy (fun _ => 0) (fun _ => 0) insConst 1 hall 1
  rw [show (insConst 1).samples = [-32768] from rfl, hE, hb]
  norm_num [BEAT_THRESHOLD]

/-- C2 (amended): for every constant E > 0, on a stream of buffers of energy
E from the zeroed state, the onset condition of invocation n+1 (the one
consuming buffer n) holds iff n < 11: the beat fires on each of the first
eleven invocations and on no invocation after. -/
theorem c2_onsets_first_eleven (E : ℚ) (hE : 0 < E) (cosf sinf : ℚ → ℚ)
    (ins : ℕ → CallbackInput) (h : ∀ i, computeEnergy (ins i).samples = E) (n : ℕ) :
    (firedDuring (iterCallback cosf sinf ins initState n) (ins n).samples ↔ n < 11) := by
  unfold firedDuring BEAT_THRESHOLD
  rw [iterCallback_beat_energy cosf sinf ins E h n, h n]
  have hpost : (9/10 * (E * (1 - (9/10)^n)) + 1/10 * E) * (7/5)
      = E * ((1 - (9/10)^(n+1)) * (7/5)) := by ring
  rw [gt_iff_lt, hpost]
  constructor
  · intro hx
    have h1 : (1 - ((9:ℚ)/10)^(n+1)) * (7/5) < 1 := by
      have h2 : E * ((1 - ((9:ℚ)/10)^(n+1)) * (7/5)) < E * 1 := by
        rw [mul_one]; exact hx
      exact (mul_lt_mul_left hE).mp h2
    by_contra hge
    push_neg at hge
    have h3 : ((9:ℚ)/10)^(n+1) ≤ (9/10)^12 :=
      pow_le_pow_of_le_one (by norm_num) (by norm_num) (by omega)
    have h4 : ((9:ℚ)/10)^12 < 2/7 := by norm_num
    linarith
  · intro hlt
    have h3 : ((9:ℚ)/10)^11 ≤ (9/10)^(n+1) :=
      pow_le_pow_of_le_one (by norm_num) (by norm_num) (by omega)
    have h4 : (2/7 : ℚ) < ((9:ℚ)/10)^11 := by norm_num
    have h1 : (1 - ((9:ℚ)/10)^(n+1)) * (7/5) < 1 := by linarith
    have h2 : E * ((1 - ((9:ℚ)/10)^(n+1)) * (7/5)) < E * 1 := (mul_lt_mul_left hE).mpr h1
    rw [mul_one] at h2
    exact h2

/-- Witness for C2's theorem: the constant stream of energy 1, first
invocation (n = 0). -/
theorem c2_onsets_first_eleven_witness :
    (firedDuring (iterCallback (fun _ => 0) (fun _ => 0) insConst initState 0)
      (insConst 0).samples ↔ (0:ℕ) < 11) :=
  c2_onsets_first_eleven 1 (by norm_num) (fun _ => 0) (fun _ => 0) insConst
    (fun i => by norm_num [insConst, computeEnergy]) 0

/-- One draw_particles step on a single active stationary particle. -/
theorem draw_particles_single (a : ℕ) (t : ℤ) (ht : 0 < t) :
    draw_particles [⟨0, 0, 0, 0, t, a⟩] = [⟨0, 0, 0, 0, t - 1, (a + 248) % 256⟩] := by
  simp [draw_particles, advanceParticle, ht]

/-- Closed form of n draw_particles steps on a particle that starts with
lifetime 49 and alpha 255: the Uint8 alpha decrement wraps modulo 256. -/
theorem iter_draw_single (n : ℕ) (hn : n ≤ 49) :
    draw_particles^[n] [⟨0, 0, 0, 0, 49, 255⟩]
      = [⟨0, 0, 0, 0, 49 - (n : ℤ), (255 + 248 * n) % 256⟩] := by
  induction n with
  | zero => simp
  | succ n ih =>
    rw [Function.iterate_succ_apply', ih (by omega)]
    rw [draw_particles_single _ _ (by omega)]
    have h5 : (49 : ℤ) - (n : ℤ) - 1 = 49 - ((n + 1 : ℕ) : ℤ) := by push_cast; ring
    have h6 : ((255 + 248 * n) % 256 + 248) % 256 = (255 + 248 * (n + 1)) % 256 := by omega
    rw [h5, h6]

/-- C4 is right about the intent but the code wraps: a particle starting at
alpha = 255 (lifetime 49) has alpha 7 after 31 advance steps and alpha 255
again after step 32 -- the Uint8 `alpha -= 8` wraps modulo 256 instead of
saturating, so alpha never becomes ≤ 0 within 32 steps. -/
theorem c4_alpha_wraps :
    draw_particles^[31] [⟨0, 0, 0, 0, 49, 255⟩] = [⟨0, 0, 0, 0, 18, 7⟩] ∧
    draw_particles^[32] [⟨0, 0, 0, 0, 49, 255⟩] = [⟨0, 0, 0, 0, 17, 255⟩] := by
  constructor
  · rw [iter_draw_single 31 (by omega)]
    norm_num
  · rw [iter_draw_single 32 (by omega)]
    norm_num

/-- For nonnegative h, C fmod by 360 agrees with the mathematical
(floor-based) remainder used by the reference formula. -/
theorem fmodQ_eq_of_nonneg (h : ℚ) (hh : 0 ≤ h) :
    fmodQ h 360 = h - 360 * ((⌊h / 360⌋ : ℤ) : ℚ) := by
  unfold fmodQ cTrunc
  rw [if_pos (div_nonneg hh (by norm_num))]

/-- On wrapped hues below 300° the code's five branches coincide with the
standard six-sector formula. -/
theorem HSLtoRGB_eq_spec_of_lt (h s l : ℚ) (hh : 0 ≤ h) (hw : fmodQ h 360 < 300) :
    HSLtoRGB h s l = HSLtoRGB_spec h s l := by
  have he := fmodQ_eq_of_nonneg h hh
  simp only [HSLtoRGB, HSLtoRGB_spec]
  rw [← he]
  split_ifs <;> rfl

/-- On wrapped hues in [300°,360°) the code's final else (which conflates
the last two sectors) returns the standard formula's red and blue channels
swapped. -/
theorem HSLtoRGB_swap_spec_of_ge (h s l : ℚ) (hh : 0 ≤ h) (hw : 300 ≤ fmodQ h 360) :
    HSLtoRGB h s l = ((HSLtoRGB_spec h s l).2.2, (HSLtoRGB_spec h s l).2.1,
      (HSLtoRGB_spec h s l).1) := by
  have he := fmodQ_eq_of_nonneg h hh
  simp only [HSLtoRGB, HSLtoRGB_spec]
  rw [← he]
  split_ifs <;> first | rfl | (exfalso; linarith)

/-- C5 fails as stated on two counts: the output is not invariant under
h → h + 360k for k = -1 at h = 120, because C fmod keeps the dividend's
sign and evaluates h = -240 in the first sector; and the code does not
reproduce the standard six-sector formula on [300°,360°): its final else
conflates the last two sectors, so at h = 330 it returns (127,0,255) where
the standard formula gives (255,0,127) — red and blue swapped. -/
theorem c5_counterexample :
    ((-240 : ℚ) = 120 + 360 * (-1 : ℤ)) ∧
    HSLtoRGB (-240) 1 (1/2) = (255, 0, 0) ∧
    HSLtoRGB 120 1 (1/2) = (0, 255, 0) ∧
    HSLtoRGB (-240) 1 (1/2) ≠ HSLtoRGB 120 1 (1/2) ∧
    HSLtoRGB 330 1 (1/2) = (127, 0, 255) ∧
    HSLtoRGB_spec 330 1 (1/2) = (255, 0, 127) ∧
    HSLtoRGB 330 1 (1/2) ≠ HSLtoRGB_spec 330 1 (1/2) := by
  have e1 : HSLtoRGB (-240) 1 (1/2) = (255, 0, 0) := by
    norm_num [HSLtoRGB, fmodQ, cTrunc, toByte]
    rfl
  have e2 : HSLtoRGB 120 1 (1/2) = (0, 255, 0) := by
    norm_num [HSLtoRGB, fmodQ, cTrunc, toByte]
    rfl
  have e3 : HSLtoRGB 330 1 (1/2) = (127, 0, 255) := by
    norm_num [HSLtoRGB, fmodQ, cTrunc, toByte, abs_of_nonneg]
    exact ⟨rfl, rfl⟩
  have e4 : HSLtoRGB_spec 330 1 (1/2) = (255, 0, 127) := by
    norm_num [HSLtoRGB_spec, fmodQ, cTrunc, toByte, abs_of_nonneg]
    exact ⟨rfl, rfl⟩
  refine ⟨by push_cast; ring, e1, e2, ?_, e3, e4, ?_⟩
  · rw [e1, e2]
    simp
  · rw [e3, e4]
    simp

/-- C5 (amended): HSLtoRGB matches the standard six-sector formula exactly
whenever the wrapped hue lies in [0°,300°) — in particular the reference
values h=0 red, h=120 green, h=240 blue, and s = 0 giving three equal
channels l*255, hold — while for wrapped hues in [300°,360°) the code's
collapsed final else returns the standard formula's red and blue channels
swapped; for nonnegative h the output is invariant under adding full turns
h → h + 360k (k ∈ ℕ), and this invariance fails for negative arguments. -/
theorem c5_hsl_properties :
    HSLtoRGB 0 1 (1/2) = (255, 0, 0) ∧
    HSLtoRGB 120 1 (1/2) = (0, 255, 0) ∧
    HSLtoRGB 240 1 (1/2) = (0, 0, 255) ∧
    (∀ h l : ℚ, HSLtoRGB h 0 l = (toByte (l * 255), toByte (l * 255), toByte (l * 255))) ∧
    (∀ h s l : ℚ, ∀ k : ℕ, 0 ≤ h → HSLtoRGB (h + 360 * k) s l = HSLtoRGB h s l) ∧
    (∀ h s l : ℚ, 0 ≤ h → fmodQ h 360 < 300 → HSLtoRGB h s l = HSLtoRGB_spec h s l) ∧
    (∀ h s l : ℚ, 0 ≤ h → 300 ≤ fmodQ h 360 →
      HSLtoRGB h s l = ((HSLtoRGB_spec h s l).2.2, (HSLtoRGB_spec h s l).2.1,
        (HSLtoRGB_spec h s l).1)) := by
  refine ⟨?_, ?_, ?_, ?_, ?_, ?_, ?_⟩
  · norm_num [HSLtoRGB, fmodQ, cTrunc, toByte]
    rfl
  · norm_num [HSLtoRGB, fmodQ, cTrunc, toByte]
    rfl
  · norm_num [HSLtoRGB, fmodQ, cTrunc, toByte]
    rfl
  · intro h l
    simp only [HSLtoRGB, mul_zero, zero_mul, zero_div, sub_zero, zero_add, add_zero]
    split_ifs <;> rfl
  · intro h s l k hh
    simp only [HSLtoRGB]
    rw [fmodQ_add_nat_mul h k hh]
  · intro h s l hh hlt
    exact HSLtoRGB_eq_spec_of_lt h s l hh hlt
  · intro h s l hh hge
    exact HSLtoRGB_swap_spec_of_ge h s l hh hge

/-- Witness for C5's theorem: two full turns above h = 5 leave the output
unchanged, the code agrees with the reference formula at h = 40, and at
h = 330 it returns the reference formula's channels red/blue-swapped. -/
theorem c5_hsl_properties_witness :
    HSLtoRGB (5 + 360 * (2 : ℕ)) (1/3) (1/2) = HSLtoRGB 5 (1/3) (1/2) ∧
    HSLtoRGB 40 (1/3) (1/2) = HSLtoRGB_spec 40 (1/3) (1/2) ∧
    HSLtoRGB 330 (1/3) (1/2)
      = ((HSLtoRGB_spec 330 (1/3) (1/2)).2.2, (HSLtoRGB_spec 330 (1/3) (1/2)).2.1,
         (HSLtoRGB_spec 330 (1/3) (1/2)).1) :=
  ⟨c5_hsl_properties.2.2.2.2.1 5 (1/3) (1/2) 2 (by norm_num),
   c5_hsl_properties.2.2.2.2.2.1 40 (1/3) (1/2) (by norm_num)
     (by norm_num [fmodQ, cTrunc]),
   c5_hsl_properties.2.2.2.2.2.2 330 (1/3) (1/2) (by norm_num)
     (by norm_num [fmodQ, cTrunc])⟩

/-- C6: each frame computes beat_strength = (now - last_beat)/1000 and
radius = 100 + amplitude*150 - beat_strength*50 with no clamping (the last
conjunct exhibits a negative radius), and the ring is exactly 180 points,
the k-th at angle 2k degrees around the screen center (400,400). -/
theorem c6_ring_and_radius (st : VisualizerState) (now : ℕ) (cosf sinf : ℚ → ℚ)
    (h1 : st.last_beat ≤ now) (h2 : now < 4294967296) :
    visRadius st now
      = 100 + st.amplitude * 150 - (((now - st.last_beat : ℕ) : ℚ) / 1000) * 50 ∧
    (draw_circle cosf sinf (visRadius st now)).length = 180 ∧
    (∀ k, k < 180 →
      (draw_circle cosf sinf (visRadius st now)).get? k =
        some (cTrunc (400 + cosf (((2 * k : ℕ) : ℚ) * M_PI / 180) * visRadius st now),
              cTrunc (400 + sinf (((2 * k : ℕ) : ℚ) * M_PI / 180) * visRadius st now))) ∧
    visRadius { initState with amplitude := 0 } 10000 < 0 := by
  have hsub : sub32 now st.last_beat = now - st.last_beat := by
    unfold sub32
    omega
  refine ⟨?_, ?_, ?_, ?_⟩
  · unfold visRadius beat_strength BASE_RADIUS
    rw [hsub]
  · simp [draw_circle]
  · intro k hk
    simp only [draw_circle, List.get?_map, List.get?_range hk, Option.map_some']
  · unfold visRadius beat_strength sub32 BASE_RADIUS
    norm_num [initState]

/-- Witness for C6's theorem: initial state viewed at tick 5. -/
theorem c6_ring_and_radius_witness :
    visRadius initState 5
      = 100 + initState.amplitude * 150 - (((5 - initState.last_beat : ℕ) : ℚ) / 1000) * 50 ∧
    (draw_circle (fun _ => 1) (fun _ => 0) (visRadius initState 5)).length = 180 ∧
    (∀ k, k < 180 →
      (draw_circle (fun _ => 1) (fun _ => 0) (visRadius initState 5)).get? k =
        some (cTrunc (400 + (fun (_ : ℚ) => (1:ℚ)) (((2 * k : ℕ) : ℚ) * M_PI / 180)
                * visRadius initState 5),
              cTrunc (400 + (fun (_ : ℚ) => (0:ℚ)) (((2 * k : ℕ) : ℚ) * M_PI / 180)
                * visRadius initState 5))) ∧
    visRadius { initState with amplitude := 0 } 10000 < 0 :=
  c6_ring_and_radius initState 5 (fun _ => 1) (fun _ => 0)
    (by simp [initState]) (by norm_num)

/-- C7 fails on one point of its angle claim: for the rand() draw
RAND_MAX the code's rand_range(0, 2π) yields exactly 2π, which is not in
the half-open interval [0, 2π). -/
theorem c7_counterexample :
    rand_range 2147483647 0 (M_PI * 2) = M_PI * 2 ∧
    ¬ (rand_range 2147483647 0 (M_PI * 2) < M_PI * 2) ∧
    (2147483647 : ℕ) ≤ RAND_MAX := by
  have h : rand_range 2147483647 0 (M_PI * 2) = M_PI * 2 := by
    unfold rand_range RAND_MAX M_PI
    norm_num
  exact ⟨h, by rw [h]; exact lt_irrefl _, by norm_num [RAND_MAX]⟩

/-- C7 (amended): on an onset with a free slot, the lowest-index inactive
slot (all lower slots active) is overwritten with position (400,400),
velocity speed·(cos θ, sin θ) for the drawn angle θ ∈ [0, 2π] (closed
interval) and speed ∈ [1, 3], an integer lifetime in [20, 49] and alpha
255; every other slot is unchanged, so at most one particle is spawned. -/
theorem c7_spawn_contract (st : VisualizerState) (samples : List ℤ)
    (now r1 r2 r3 : ℕ) (cosf sinf : ℚ → ℚ)
    (hf : firedDuring st samples) (i : ℕ) (hi : firstFree st.particles = some i)
    (hr1 : r1 ≤ RAND_MAX) (hr2 : r2 ≤ RAND_MAX) :
    (audio_callback st samples now r1 r2 r3 cosf sinf).particles
      = st.particles.set i (newParticle cosf sinf r1 r2 r3) ∧
    (∃ q, st.particles.get? i = some q ∧ q.lifetime ≤ 0) ∧
    (∀ j, j < i → ∀ q, st.particles.get? j = some q → 0 < q.lifetime) ∧
    (∀ j, j ≠ i → (audio_callback st samples now r1 r2 r3 cosf sinf).particles.get? j
        = st.particles.get? j) ∧
    (newParticle cosf sinf r1 r2 r3).x = 400 ∧
    (newParticle cosf sinf r1 r2 r3).y = 400 ∧
    (newParticle cosf sinf r1 r2 r3).dx
      = cosf (rand_range r1 0 (M_PI * 2)) * rand_range r2 1 3 ∧
    (newParticle cosf sinf r1 r2 r3).dy
      = sinf (rand_range r1 0 (M_PI * 2)) * rand_range r2 1 3 ∧
    (0 ≤ rand_range r1 0 (M_PI * 2) ∧ rand_range r1 0 (M_PI * 2) ≤ M_PI * 2) ∧
    (1 ≤ rand_range r2 1 3 ∧ rand_range r2 1 3 ≤ 3) ∧
    (newParticle cosf sinf r1 r2 r3).lifetime = ((r3 % 30 : ℕ) : ℤ) + 20 ∧
    (20 ≤ (newParticle cosf sinf r1 r2 r3).lifetime ∧
      (newParticle cosf sinf r1 r2 r3).lifetime ≤ 49) ∧
    (newParticle cosf sinf r1 r2 r3).alpha = 255 := by
  have hset : (audio_callback st samples now r1 r2 r3 cosf sinf).particles
      = st.particles.set i (newParticle cosf sinf r1 r2 r3) := by
    rw [audio_callback_particles, if_pos hf, spawnInto_eq_set _ _ _ hi]
  obtain ⟨hex, hmin⟩ := firstFree_spec st.particles i hi
  have hangle := rand_range_bounds r1 0 (M_PI * 2) hr1 (by norm_num [M_PI])
  have hspeed := rand_range_bounds r2 1 3 hr2 (by norm_num)
  refine ⟨hset, hex, hmin, ?_, rfl, rfl, rfl, rfl,
    ⟨hangle.1, hangle.2⟩, ⟨hspeed.1, hspeed.2⟩, rfl, ⟨?_, ?_⟩, rfl⟩
  · intro j hj
    rw [hset]
    exact List.get?_set_ne _ _ (fun he => hj he.symm)
  · show (20 : ℤ) ≤ ((r3 % 30 : ℕ) : ℤ) + 20
    omega
  · show ((r3 % 30 : ℕ) : ℤ) + 20 ≤ 49
    omega

/-- Witness for C7's theorem: initial state (slot 0 is the first free
slot), an onset-triggering buffer, rand() draws 0, 0, 0. -/
theorem c7_spawn_contract_witness :
    (audio_callback initState [16384] 5 0 0 0 (fun _ => 1) (fun _ => 0)).particles
      = initState.particles.set 0 (newParticle (fun _ => 1) (fun _ => 0) 0 0 0) ∧
    (∃ q, initState.particles.get? 0 = some q ∧ q.lifetime ≤ 0) ∧
    (∀ j, j < 0 → ∀ q, initState.particles.get? j = some q → 0 < q.lifetime) ∧
    (∀ j, j ≠ 0 → (audio_callback initState [16384] 5 0 0 0 (fun _ => 1) (fun _ => 0)).particles.get? j
        = initState.particles.get? j) ∧
    (newParticle (fun _ => 1) (fun _ => 0) 0 0 0).x = 400 ∧
    (newParticle (fun _ => 1) (fun _ => 0) 0 0 0).y = 400 ∧
    (newParticle (fun _ => 1) (fun _ => 0) 0 0 0).dx
      = (fun (_ : ℚ) => (1:ℚ)) (rand_range 0 0 (M_PI * 2)) * rand_range 0 1 3 ∧
    (newParticle (fun _ => 1) (fun _ => 0) 0 0 0).dy
      = (fun (_ : ℚ) => (0:ℚ)) (rand_range 0 0 (M_PI * 2)) * rand_range 0 1 3 ∧
    (0 ≤ rand_range 0 0 (M_PI * 2) ∧ rand_range 0 0 (M_PI * 2) ≤ M_PI * 2) ∧
    (1 ≤ rand_range 0 1 3 ∧ rand_range 0 1 3 ≤ 3) ∧
    (newParticle (fun _ => 1) (fun _ => 0) 0 0 0).lifetime = ((0 % 30 : ℕ) : ℤ) + 20 ∧
    (20 ≤ (newParticle (fun _ => 1) (fun _ => 0) 0 0 0).lifetime ∧
      (newParticle (fun _ => 1) (fun _ => 0) 0 0 0).lifetime ≤ 49) ∧
    (newParticle (fun _ => 1) (fun _ => 0) 0 0 0).alpha = 255 :=
  c7_spawn_contract initState [16384] 5 0 0 0 (fun _ => 1) (fun _ => 0)
    (by unfold firedDuring
        norm_num [computeEnergy, initState, BEAT_THRESHOLD])
    0 rfl (by norm_num [RAND_MAX]) (by norm_num [RAND_MAX])

